import Mathlib

/-!
Shallow embedding of the zenprocurement repository (src/auth.py, src/app.py,
src/admin_dashboard.py, src/quote.py) together with proofs of the spec claims.

The hosted Supabase store is modelled as an explicit record of tables (lists of
rows); each auth operation takes the store state and returns its result together
with the updated store.  Exceptions raised by hosted-store calls are modelled by
`Option String` fault parameters, one per hosted call in source order: `some e`
means that call raises an exception whose text is `e`, `none` means it returns
normally.  Times (`datetime.now()`, `isoformat` strings, the start of today) are
modelled as naturals with the order of timestamps.
-/

namespace ZenProc

/-! ### SHA-256 (hashlib.sha256(...).hexdigest() over the UTF-8 bytes) -/

def M32 : Nat := 4294967296

def rotr32 (n x : Nat) : Nat :=
  (x >>> n) ||| ((x <<< (32 - n)) % M32)

def ch32 (x y z : Nat) : Nat := (x &&& y) ^^^ ((x ^^^ 4294967295) &&& z)

def maj32 (x y z : Nat) : Nat := (x &&& y) ^^^ (x &&& z) ^^^ (y &&& z)

def bSig0 (x : Nat) : Nat := rotr32 2 x ^^^ rotr32 13 x ^^^ rotr32 22 x

def bSig1 (x : Nat) : Nat := rotr32 6 x ^^^ rotr32 11 x ^^^ rotr32 25 x

def sSig0 (x : Nat) : Nat := rotr32 7 x ^^^ rotr32 18 x ^^^ (x >>> 3)

def sSig1 (x : Nat) : Nat := rotr32 17 x ^^^ rotr32 19 x ^^^ (x >>> 10)

def shaK : List Nat :=
  [1116352408, 1899447441, 3049323471, 3921009573, 961987163,
   1508970993, 2453635748, 2870763221, 3624381080, 310598401,
   607225278, 1426881987, 1925078388, 2162078206, 2614888103,
   3248222580, 3835390401, 4022224774, 264347078, 604807628,
   770255983, 1249150122, 1555081692, 1996064986, 2554220882,
   2821834349, 2952996808, 3210313671, 3336571891, 3584528711,
   113926993, 338241895, 666307205, 773529912, 1294757372,
   1396182291, 1695183700, 1986661051, 2177026350, 2456956037,
   2730485921, 2820302411, 3259730800, 3345764771, 3516065817,
   3600352804, 4094571909, 275423344, 430227734, 506948616,
   659060556, 883997877, 958139571, 1322822218, 1537002063,
   1747873779, 1955562222, 2024104815, 2227730452, 2361852424,
   2428436474, 2756734187, 3204031479, 3329325298]

def shaH0 : List Nat :=
  [1779033703, 3144134277, 1013904242, 2773480762,
   1359893119, 2600822924, 528734635, 1541459225]

/-- SHA-256 message padding: append 0x80, zeros, then the 64-bit big-endian bit length. -/
def padMsg (msg : List Nat) : List Nat :=
  let L := msg.length
  let k := (119 - L % 64) % 64
  let bitLen := (8 * L) % 2 ^ 64
  msg ++ [0x80] ++ List.replicate k 0 ++
    (List.range 8).map (fun i => (bitLen >>> (8 * (7 - i))) &&& 255)

/-- Group a byte list into big-endian 32-bit words. -/
def toWords : List Nat → List Nat
  | b0 :: b1 :: b2 :: b3 :: rest => (((b0 * 256 + b1) * 256 + b2) * 256 + b3) :: toWords rest
  | _ => []

def chunksAux : Nat → List Nat → List (List Nat)
  | 0, _ => []
  | _, [] => []
  | n + 1, l => l.take 64 :: chunksAux n (l.drop 64)

/-- Split the padded message into 64-byte blocks. -/
def toBlocks (l : List Nat) : List (List Nat) := chunksAux l.length l

def stepW (ws : List Nat) : List Nat :=
  ws ++ [(sSig1 (ws.getD (ws.length - 2) 0) + ws.getD (ws.length - 7) 0 +
          sSig0 (ws.getD (ws.length - 15) 0) + ws.getD (ws.length - 16) 0) % M32]

/-- Extend the 16 block words to the 64-entry message schedule. -/
def schedule (ws : List Nat) : List Nat :=
  (List.range 48).foldl (fun acc _ => stepW acc) ws

def compressStep (s : List Nat) (wk : Nat × Nat) : List Nat :=
  match s with
  | [a, b, c, d, e, f, g, h] =>
    let t1 := (h + bSig1 e + ch32 e f g + wk.2 + wk.1) % M32
    let t2 := (bSig0 a + maj32 a b c) % M32
    [(t1 + t2) % M32, a, b, c, (d + t1) % M32, e, f, g]
  | s => s

def processBlock (h : List Nat) (block : List Nat) : List Nat :=
  let w := schedule (toWords block)
  let s := (w.zip shaK).foldl compressStep h
  (h.zip s).map (fun p => (p.1 + p.2) % M32)

/-- SHA-256 of a byte sequence, as the list of the eight 32-bit state words. -/
def sha256 (msg : List Nat) : List Nat :=
  (toBlocks (padMsg msg)).foldl processBlock shaH0

def hexDigit (n : Nat) : Char :=
  if n < 10 then Char.ofNat (48 + n) else Char.ofNat (87 + n)

def toHex8 (n : Nat) : List Char :=
  (List.range 8).map (fun i => hexDigit ((n >>> (4 * (7 - i))) &&& 15))

/-- UTF-8 encoding of a Unicode code point (Python str.encode()). -/
def utf8Bytes (c : Nat) : List Nat :=
  if c < 0x80 then [c]
  else if c < 0x800 then [0xc0 + c / 64, 0x80 + c % 64]
  else if c < 0x10000 then [0xe0 + c / 4096, 0x80 + c / 64 % 64, 0x80 + c % 64]
  else [0xf0 + c / 262144, 0x80 + c / 4096 % 64, 0x80 + c / 64 % 64, 0x80 + c % 64]

def strBytes (s : String) : List Nat := (s.data.map (fun c => utf8Bytes c.toNat)).flatten

/-- auth.py hash_password: SHA-256 hex digest of the UTF-8 encoded password. -/
def hash_password (password : String) : String :=
  String.mk (((sha256 (strBytes password)).map toHex8).flatten)

/-- auth.py verify_password: compare the hash of the password with the stored hash. -/
def verify_password (password : String) (hashed : String) : Bool :=
  hash_password password == hashed

/-! ### Data model: rows of the hosted tables -/

/-- A row of the `users` table. -/
structure User where
  id : Nat
  username : String
  email : String
  password_hash : String
  subscription_tier : String
  subscription_status : String
  created_at : Nat
  last_login : Option Nat
  is_admin : Bool
deriving Repr, DecidableEq

/-- A row of the `password_resets` table. -/
structure PasswordReset where
  id : Nat
  user_id : Nat
  reset_token : String
  expires_at : Nat
  used : Bool
  created_at : Nat
deriving Repr, DecidableEq

/-- A row of the `user_activity` table. -/
structure Activity where
  user_id : Nat
  action_type : String
  created_at : Nat
deriving Repr, DecidableEq

/-- The hosted store state: the three tables the auth module touches. -/
structure DB where
  users : List User
  password_resets : List PasswordReset
  user_activity : List Activity
deriving Repr, DecidableEq

/-- select("*").eq("username", username).execute().data[0], as Option. -/
def findByUsername (db : DB) (username : String) : Option User :=
  (db.users.filter (fun u => u.username == username)).head?

/-- select("*").eq("email", email).execute().data, nonempty test. -/
def emailExists (db : DB) (email : String) : Bool :=
  !(db.users.filter (fun u => u.email == email)).isEmpty

/-- select("*").eq("username", username).execute().data, nonempty test. -/
def usernameExists (db : DB) (username : String) : Bool :=
  !(db.users.filter (fun u => u.username == username)).isEmpty

/-! ### auth.py operations over the store -/

/-- auth.py create_user.  `now` is datetime.now(); `newId` is the id the store
assigns to the inserted row; `fault1/fault2/fault3` model exceptions raised by
the three hosted calls (username select, email select, insert) in source order. -/
def create_user (db : DB) (username email password subscription_tier : String)
    (now newId : Nat) (fault1 fault2 fault3 : Option String) : (Bool × String) × DB :=
  match fault1 with
  | some e => ((false, "Error creating account: " ++ e), db)
  | none =>
    if usernameExists db username then ((false, "Username already exists"), db)
    else
      match fault2 with
      | some e => ((false, "Error creating account: " ++ e), db)
      | none =>
        if emailExists db email then ((false, "Email already registered"), db)
        else
          match fault3 with
          | some e => ((false, "Error creating account: " ++ e), db)
          | none =>
            let user : User :=
              { id := newId, username := username, email := email,
                password_hash := hash_password password,
                subscription_tier := subscription_tier,
                subscription_status := "active", created_at := now,
                last_login := none, is_admin := false }
            ((true, "Account created successfully"),
             { db with users := db.users ++ [user] })

/-- auth.py authenticate_user.  Returns (success, user row as fetched, message)
together with the updated store; `fault1/fault2` model exceptions of the two
hosted calls (user select, last_login update). -/
def authenticate_user (db : DB) (username password : String) (now : Nat)
    (fault1 fault2 : Option String) : (Bool × Option User × String) × DB :=
  match fault1 with
  | some e => ((false, none, "Login error: " ++ e), db)
  | none =>
    match findByUsername db username with
    | none => ((false, none, "Invalid username or password"), db)
    | some user_data =>
      if !verify_password password user_data.password_hash then
        ((false, none, "Invalid username or password"), db)
      else if user_data.subscription_status != "active" then
        ((false, none, "Account suspended or inactive"), db)
      else
        match fault2 with
        | some e => ((false, none, "Login error: " ++ e), db)
        | none =>
          let users := db.users.map (fun u =>
            if u.id == user_data.id then { u with last_login := some now } else u)
          ((true, some user_data, "Login successful"), { db with users := users })

/-- select("*").eq("reset_token", t).eq("used", False).execute().data[0], as Option. -/
def findActiveReset (db : DB) (token : String) : Option PasswordReset :=
  (db.password_resets.filter (fun r => r.reset_token == token && r.used == false)).head?

/-- auth.py reset_password.  `fault1/fault2/fault3` model exceptions of the
three hosted calls (token select, users update, password_resets update). -/
def reset_password (db : DB) (reset_token new_password : String) (now : Nat)
    (fault1 fault2 fault3 : Option String) : (Bool × String) × DB :=
  match fault1 with
  | some e => ((false, "Reset error: " ++ e), db)
  | none =>
    match findActiveReset db reset_token with
    | none => ((false, "Invalid or expired reset token"), db)
    | some reset_record =>
      if reset_record.expires_at < now then ((false, "Reset token has expired"), db)
      else
        match fault2 with
        | some e => ((false, "Reset error: " ++ e), db)
        | none =>
          let users := db.users.map (fun u =>
            if u.id == reset_record.user_id then
              { u with password_hash := hash_password new_password } else u)
          match fault3 with
          | some e => ((false, "Reset error: " ++ e), { db with users := users })
          | none =>
            let resets := db.password_resets.map (fun r =>
              if r.id == reset_record.id then { r with used := true } else r)
            ((true, "Password reset successfully"),
             { db with users := users, password_resets := resets })

/-- auth.py get_user_subscription_info: fetch the user row by id; on a hosted
call exception (`fault = some e`) the except branch returns None. -/
def get_user_subscription_info (db : DB) (user_id : Nat) (fault : Option String) :
    Option User :=
  match fault with
  | some _ => none
  | none => (db.users.filter (fun u => u.id == user_id)).head?

/-- The static limits dict inside auth.py check_subscription_limits, as an
association list per tier; `none` for a tier not in the dict. -/
def tierLimits (tier : String) : Option (List (String × Int)) :=
  if tier == "basic" then
    some [("searches_per_day", 10), ("ai_suggestions_per_day", 5),
          ("image_generations_per_day", 3), ("quotes_per_day", 5)]
  else if tier == "premium" then
    some [("searches_per_day", 100), ("ai_suggestions_per_day", 50),
          ("image_generations_per_day", 25), ("quotes_per_day", 50)]
  else if tier == "enterprise" then
    some [("searches_per_day", -1), ("ai_suggestions_per_day", -1),
          ("image_generations_per_day", -1), ("quotes_per_day", -1)]
  else none

/-- dict.get(key, 0) on an association list. -/
def lookupLimit (l : List (String × Int)) (key : String) : Int :=
  match l.find? (fun p => p.1 == key) with
  | some p => p.2
  | none => 0

/-- Today's usage rows: user_activity filtered by user id, action type and
created_at >= start of today. -/
def todayUsage (db : DB) (user_id : Nat) (action_type : String) (today : Nat) : Nat :=
  (db.user_activity.filter (fun a =>
    a.user_id == user_id && a.action_type == action_type && today ≤ a.created_at)).length

/-- auth.py check_subscription_limits.  `today` is datetime.now().date();
`fault` is an exception of the user select inside get_user_subscription_info. -/
def check_subscription_limits (db : DB) (user_id : Nat) (action_type : String)
    (today : Nat) (fault : Option String) : Bool :=
  match get_user_subscription_info db user_id fault with
  | none => false
  | some user_info =>
    let tier := user_info.subscription_tier
    match tierLimits tier with
    | none => false
    | some tier_limits =>
      let daily_limit := lookupLimit tier_limits (action_type ++ "_per_day")
      if daily_limit == -1 then true
      else decide ((todayUsage db user_id action_type today : Int) < daily_limit)

/-! ### app.py get_subscription_limits -/

/-- The static limits dict inside app.py get_subscription_limits, keyed by the
short quota-kind names. -/
def appLimitsTable (tier : String) : Option (List (String × Int)) :=
  if tier == "basic" then
    some [("searches", 10), ("ai_suggestions", 5), ("image_generations", 3), ("quotes", 5)]
  else if tier == "premium" then
    some [("searches", 100), ("ai_suggestions", 50), ("image_generations", 25), ("quotes", 50)]
  else if tier == "enterprise" then
    some [("searches", -1), ("ai_suggestions", -1), ("image_generations", -1), ("quotes", -1)]
  else none

/-- app.py get_subscription_limits: limits.get(tier, limits["basic"]). -/
def get_subscription_limits (tier : String) : List (String × Int) :=
  match appLimitsTable tier with
  | some l => l
  | none => [("searches", 10), ("ai_suggestions", 5), ("image_generations", 3), ("quotes", 5)]

/-! ### admin_dashboard.py admin_dashboard -/

/-- Outcome of rendering the admin dashboard: either the access-denied error
with an immediate return, or the dispatch to one admin function, or nothing
(unknown sidebar value, unreachable through the real selectbox). -/
inductive AdminView where
  | accessDenied
  | overview
  | userManagement
  | analytics
  | subscriptions
  | reports
  | moderation
  | noPage
deriving Repr, DecidableEq

/-- admin_dashboard.py admin_dashboard: the guard reads st.session_state.user
and its is_admin flag, then dispatches on the sidebar selection. -/
def admin_dashboard (session_user : Option User) (admin_page : String) : AdminView :=
  match session_user with
  | none => .accessDenied
  | some u =>
    if !u.is_admin then .accessDenied
    else if admin_page == "📊 Overview" then .overview
    else if admin_page == "👥 User Management" then .userManagement
    else if admin_page == "📈 Analytics" then .analytics
    else if admin_page == "💳 Subscriptions" then .subscriptions
    else if admin_page == "📋 Reports" then .reports
    else if admin_page == "🛡️ Moderation" then .moderation
    else .noPage

/-! ### quote.py generate_quote_pdf -/

/-- A reportlab canvas drawing operation used by quote.py. -/
inductive PdfOp where
  | setFont (font : String) (size : Nat)
  | drawString (x : Nat) (y : Nat) (text : String)
deriving Repr, DecidableEq

/-- The saved PDF document: page size, page count, drawing operations. -/
structure PdfFile where
  pagesize : Nat × Nat
  pages : Nat
  ops : List PdfOp
deriving Repr, DecidableEq

/-- reportlab.lib.pagesizes.letter in points. -/
def letterSize : Nat × Nat := (612, 792)

/-- quote.py generate_quote_pdf: draw the fixed-position strings on one
letter-size page, save as "quote.pdf" and return the filename.  `dateStr` is
datetime.datetime.now().strftime of today's date. -/
def generate_quote_pdf (product_name : String) (quantity : Int) (dateStr : String) :
    PdfFile × String :=
  let height := letterSize.2
  ({ pagesize := letterSize, pages := 1,
     ops := [ .setFont "Helvetica-Bold" 20,
              .drawString 50 (height - 50) "Quotation",
              .setFont "Helvetica" 12,
              .drawString 50 (height - 100) ("Date: " ++ dateStr),
              .drawString 50 (height - 120) ("Product: " ++ product_name),
              .drawString 50 (height - 140) ("Quantity: " ++ toString quantity),
              .drawString 50 (height - 180) "Thank you for your business." ] },
   "quote.pdf")

/-! ### Concrete store states used to instantiate the claims -/

/-- A stored user whose password hash matches "pw1" but whose subscription
status is suspended. -/
def aliceC1 : User :=
  { id := 1, username := "alice", email := "alice@x.com",
    password_hash := hash_password "pw1", subscription_tier := "basic",
    subscription_status := "suspended", created_at := 0,
    last_login := none, is_admin := false }

def dbC1 : DB := { users := [aliceC1], password_resets := [], user_activity := [] }

/-- A stored inactive user whose hash matches "pw". -/
def bobC4 : User :=
  { id := 2, username := "bob", email := "bob@x.com",
    password_hash := hash_password "pw", subscription_tier := "basic",
    subscription_status := "suspended", created_at := 0,
    last_login := none, is_admin := false }

/-- A stored active user whose hash matches "pw". -/
def carolC4 : User :=
  { id := 3, username := "carol", email := "carol@x.com",
    password_hash := hash_password "pw", subscription_tier := "premium",
    subscription_status := "active", created_at := 0,
    last_login := none, is_admin := false }

def dbC4a : DB := { users := [bobC4], password_resets := [], user_activity := [] }

def dbC4b : DB := { users := [carolC4], password_resets := [], user_activity := [] }

/-- A stored user occupying the username "dave" and the email "dave@x.com". -/
def daveC5 : User :=
  { id := 4, username := "dave", email := "dave@x.com",
    password_hash := "h", subscription_tier := "basic",
    subscription_status := "active", created_at := 0,
    last_login := none, is_admin := false }

def dbC5 : DB := { users := [daveC5], password_resets := [], user_activity := [] }

/-- A stored basic-tier user. -/
def eveC2 : User :=
  { id := 5, username := "eve", email := "eve@x.com",
    password_hash := "h", subscription_tier := "basic",
    subscription_status := "active", created_at := 0,
    last_login := none, is_admin := false }

/-- Ten search activity rows of user 5 recorded today (timestamps >= 100). -/
def dbC2 : DB :=
  { users := [eveC2], password_resets := [],
    user_activity := (List.range 10).map (fun i =>
      { user_id := 5, action_type := "searches", created_at := 100 + i }) }

/-- A stored user on an unknown "gold" tier. -/
def frankC7 : User :=
  { id := 6, username := "frank", email := "frank@x.com",
    password_hash := "h", subscription_tier := "gold",
    subscription_status := "active", created_at := 0,
    last_login := none, is_admin := false }

def dbC7 : DB :=
  { users := [frankC7, eveC2], password_resets := [], user_activity := [] }

/-- A stored user together with an unused, unexpired reset row. -/
def ginaC3 : User :=
  { id := 7, username := "gina", email := "gina@x.com",
    password_hash := hash_password "old", subscription_tier := "basic",
    subscription_status := "active", created_at := 0,
    last_login := none, is_admin := false }

def resetC3 : PasswordReset :=
  { id := 10, user_id := 7, reset_token := "tok", expires_at := 50,
    used := false, created_at := 0 }

def dbC3 : DB := { users := [ginaC3], password_resets := [resetC3], user_activity := [] }

/-! ### Claim C10: quote PDF -/

/-- C10: for every product name and quantity, generate_quote_pdf produces a
single letter-size page with the title, date, product name, quantity and
closing line drawn at fixed coordinates, and returns the filename "quote.pdf". -/
theorem C10_quote_pdf (product_name : String) (quantity : Int) (dateStr : String) :
    generate_quote_pdf product_name quantity dateStr =
      ({ pagesize := (612, 792), pages := 1,
         ops := [ .setFont "Helvetica-Bold" 20,
                  .drawString 50 742 "Quotation",
                  .setFont "Helvetica" 12,
                  .drawString 50 692 ("Date: " ++ dateStr),
                  .drawString 50 672 ("Product: " ++ product_name),
                  .drawString 50 652 ("Quantity: " ++ toString quantity),
                  .drawString 50 612 "Thank you for your business." ] },
       "quote.pdf") := rfl

/-! ### Claim C8: admin dashboard guard -/

/-- C8: whenever no user is in the session or the session user's is_admin flag
is false, admin_dashboard shows the access-denied error and returns at once,
dispatching to no admin function. -/
theorem C8_admin_guard (session_user : Option User) (admin_page : String)
    (h : session_user = none ∨ ∃ u, session_user = some u ∧ u.is_admin = false) :
    admin_dashboard session_user admin_page = AdminView.accessDenied := by
  rcases h with h | ⟨u, hu, ha⟩
  · simp [h, admin_dashboard]
  · subst hu
    simp [admin_dashboard, ha]

/-- Witness for C8 at a concrete empty session and a concrete non-admin user. -/
theorem C8_admin_guard_witness :
    admin_dashboard none "📊 Overview" = AdminView.accessDenied ∧
    admin_dashboard
      (some { id := 1, username := "bob", email := "b@x.com", password_hash := "h",
              subscription_tier := "basic", subscription_status := "active",
              created_at := 0, last_login := none, is_admin := false })
      "📊 Overview" = AdminView.accessDenied :=
  ⟨C8_admin_guard none "📊 Overview" (Or.inl rfl),
   C8_admin_guard _ "📊 Overview" (Or.inr ⟨_, rfl, rfl⟩)⟩

/-! ### Claim C6: the two static limits tables agree -/

/-- C6: for every tier among basic, premium and enterprise, and every quota
kind among searches, AI suggestions, image generations and quotes per day, the
static table inside auth.py check_subscription_limits and the static table of
app.py get_subscription_limits assign the same daily quota. -/
theorem C6_limit_tables_agree (tier kind : String)
    (htier : tier ∈ ["basic", "premium", "enterprise"])
    (hkind : kind ∈ ["searches", "ai_suggestions", "image_generations", "quotes"]) :
    lookupLimit (get_subscription_limits tier) kind =
      lookupLimit ((tierLimits tier).getD []) (kind ++ "_per_day") := by
  fin_cases htier <;> fin_cases hkind <;> decide

/-- Witness for C6 at the premium tier and the image-generation quota. -/
theorem C6_limit_tables_agree_witness :
    lookupLimit (get_subscription_limits "premium") "image_generations" =
      lookupLimit ((tierLimits "premium").getD []) ("image_generations" ++ "_per_day") :=
  C6_limit_tables_agree "premium" "image_generations" (by decide) (by decide)

/-! ### Claim C1: authentication success versus hash match -/

/-- C1 counterexample: on a stored record whose hash matches the supplied
password but whose subscription status is "suspended", authenticate_user fails,
so authentication success is not equivalent to the hash matching alone. -/
theorem C1_counterexample :
    aliceC1 ∈ dbC1.users ∧
    verify_password "pw1" aliceC1.password_hash = true ∧
    (authenticate_user dbC1 "alice" "pw1" 7 none none).1.1 = false := by
  refine ⟨by decide, ?_, ?_⟩ <;> decide

/-- C1 (amended): with no hosted-call exception, authenticate_user succeeds on
a stored record exactly when the record is found for the username, the SHA-256
hash of the supplied password equals the stored password hash, and the record's
subscription status is "active". -/
theorem C1_authenticate_iff (db : DB) (username password : String) (now : Nat) :
    (authenticate_user db username password now none none).1.1 = true ↔
      ∃ u, findByUsername db username = some u ∧
        verify_password password u.password_hash = true ∧
        u.subscription_status = "active" := by
  unfold authenticate_user
  cases h : findByUsername db username with
  | none => simp
  | some u =>
    by_cases hv : verify_password password u.password_hash
    · by_cases hs : u.subscription_status = "active"
      · simp [hv, hs]
      · simp [hv, hs]
    · simp [Bool.not_eq_true] at hv
      simp [hv]

/-- The username-select test succeeds exactly when some stored user has the
username. -/
theorem usernameExists_iff (db : DB) (username : String) :
    usernameExists db username = true ↔ ∃ u ∈ db.users, u.username = username := by
  simp [usernameExists, List.isEmpty_iff, List.filter_eq_nil_iff]

/-- The email-select test succeeds exactly when some stored user has the
email. -/
theorem emailExists_iff (db : DB) (email : String) :
    emailExists db email = true ↔ ∃ u ∈ db.users, u.email = email := by
  simp [emailExists, List.isEmpty_iff, List.filter_eq_nil_iff]

/-! ### Claim C4: inactive accounts rejected; successful login frame -/

/-- C4: (left) when the stored hash matches the supplied password but the
record's subscription status is not "active", authenticate_user rejects the
login; (right) on every successful login the store differs from before only in
that the matched record's last_login field is set to the login time: every
other field, and every other table, is unchanged. -/
theorem C4_inactive_reject_and_frame (db : DB) (username password : String) (now : Nat) :
    (∀ u, findByUsername db username = some u →
      verify_password password u.password_hash = true →
      u.subscription_status ≠ "active" →
      (authenticate_user db username password now none none).1.1 = false) ∧
    ((authenticate_user db username password now none none).1.1 = true →
      ∃ u, findByUsername db username = some u ∧
        (authenticate_user db username password now none none).2 =
          { db with users := db.users.map (fun v =>
              if v.id == u.id then { v with last_login := some now } else v) }) := by
  constructor
  · intro u hu hv hs
    unfold authenticate_user
    rw [hu]
    simp [hv, hs]
  · intro hsucc
    unfold authenticate_user at hsucc ⊢
    cases h : findByUsername db username with
    | none =>
      rw [h] at hsucc
      simp at hsucc
    | some u =>
      rw [h] at hsucc
      by_cases hv : verify_password password u.password_hash
      · by_cases hs : u.subscription_status = "active"
        · exact ⟨u, rfl, by simp [hv, hs]⟩
        · simp [hv, hs] at hsucc
      · simp [Bool.not_eq_true] at hv
        simp [hv] at hsucc

/-- Witness for C4: the inactive matching user is rejected, and a successful
login only sets last_login. -/
theorem C4_inactive_reject_and_frame_witness :
    (authenticate_user dbC4a "bob" "pw" 5 none none).1.1 = false ∧
    (∃ u, findByUsername dbC4b "carol" = some u ∧
      (authenticate_user dbC4b "carol" "pw" 5 none none).2 =
        { dbC4b with users := dbC4b.users.map (fun v =>
            if v.id == u.id then { v with last_login := some 5 } else v) }) :=
  ⟨(C4_inactive_reject_and_frame dbC4a "bob" "pw" 5).1 bobC4 (by decide) (by decide)
      (by decide),
   (C4_inactive_reject_and_frame dbC4b "carol" "pw" 5).2 (by decide)⟩

/-! ### Claim C5: duplicate username or email rejected, store unchanged -/

/-- C5: when some stored user already has the requested username or already has
the requested email, create_user fails with one of the duplicate messages and
leaves the store unchanged. -/
theorem C5_duplicate_rejected (db : DB) (username email password tier : String)
    (now newId : Nat)
    (h : (∃ u ∈ db.users, u.username = username) ∨ (∃ u ∈ db.users, u.email = email)) :
    (create_user db username email password tier now newId none none none).1.1 = false ∧
    ((create_user db username email password tier now newId none none none).1.2 =
        "Username already exists" ∨
     (create_user db username email password tier now newId none none none).1.2 =
        "Email already registered") ∧
    (create_user db username email password tier now newId none none none).2 = db := by
  unfold create_user
  by_cases hn : usernameExists db username
  · simp [hn]
  · have hn' : ¬ ∃ u ∈ db.users, u.username = username :=
      fun hc => hn ((usernameExists_iff db username).mpr hc)
    have he' : emailExists db email = true :=
      (emailExists_iff db email).mpr (h.resolve_left hn')
    simp [hn, he']

/-- Witness for C5: registering with the taken email "dave@x.com" fails and
leaves the store unchanged. -/
theorem C5_duplicate_rejected_witness :
    (create_user dbC5 "newdave" "dave@x.com" "pw" "basic" 9 77 none none none).1.1 = false ∧
    ((create_user dbC5 "newdave" "dave@x.com" "pw" "basic" 9 77 none none none).1.2 =
        "Username already exists" ∨
     (create_user dbC5 "newdave" "dave@x.com" "pw" "basic" 9 77 none none none).1.2 =
        "Email already registered") ∧
    (create_user dbC5 "newdave" "dave@x.com" "pw" "basic" 9 77 none none none).2 = dbC5 :=
  C5_duplicate_rejected dbC5 "newdave" "dave@x.com" "pw" "basic" 9 77
    (Or.inr ⟨daveC5, by decide, by decide⟩)

/-! ### Claim C2: limit check against the static threshold -/

/-- C2: when the user row is fetched, the tier is in the static table, and the
action's entry there is a nonnegative threshold L, check_subscription_limits
returns true exactly when the number of matching activity rows recorded today
is strictly below L (so it returns false once that count reaches L). -/
theorem C2_limit_threshold (db : DB) (user_id : Nat) (action_type : String) (today : Nat)
    (u : User) (tl : List (String × Int)) (L : Int)
    (hu : get_user_subscription_info db user_id none = some u)
    (htl : tierLimits u.subscription_tier = some tl)
    (hL : lookupLimit tl (action_type ++ "_per_day") = L)
    (hpos : 0 ≤ L) :
    (check_subscription_limits db user_id action_type today none = true ↔
      (todayUsage db user_id action_type today : Int) < L) := by
  unfold check_subscription_limits
  have hne : (L == -1) = false := by
    simp only [beq_eq_false_iff_ne, ne_eq]
    omega
  simp only [hu, htl, hL, hne]
  simp

/-- Witness for C2: for the basic tier the searches threshold is 10, and with
ten rows already recorded today the limit check returns false. -/
theorem C2_limit_threshold_witness :
    (check_subscription_limits dbC2 5 "searches" 100 none = true ↔
      (todayUsage dbC2 5 "searches" 100 : Int) < 10) ∧
    check_subscription_limits dbC2 5 "searches" 100 none = false :=
  ⟨C2_limit_threshold dbC2 5 "searches" 100 eveC2 _ 10 (by decide) rfl (by decide)
      (by decide),
   by decide⟩

/-! ### Claim C7: check_subscription_limits denies by default -/

/-- C7: the limit check returns false whenever the user row cannot be fetched
(a hosted-call exception, or no row with the id), whenever the fetched tier is
not in the static table, and whenever the action type has no entry in the
tier's table (the dict lookup defaulting to a zero quota). -/
theorem C7_deny_by_default (db : DB) (user_id : Nat) (action_type : String) (today : Nat) :
    (∀ e, check_subscription_limits db user_id action_type today (some e) = false) ∧
    (get_user_subscription_info db user_id none = none →
      check_subscription_limits db user_id action_type today none = false) ∧
    (∀ u, get_user_subscription_info db user_id none = some u →
      tierLimits u.subscription_tier = none →
      check_subscription_limits db user_id action_type today none = false) ∧
    (∀ u tl, get_user_subscription_info db user_id none = some u →
      tierLimits u.subscription_tier = some tl →
      tl.find? (fun p => p.1 == action_type ++ "_per_day") = none →
      check_subscription_limits db user_id action_type today none = false) := by
  refine ⟨fun e => rfl, fun h => ?_, fun u hu ht => ?_, fun u tl hu htl hf => ?_⟩
  · unfold check_subscription_limits
    rw [h]
  · unfold check_subscription_limits
    simp only [hu, ht]
  · unfold check_subscription_limits
    have h0 : lookupLimit tl (action_type ++ "_per_day") = 0 := by
      unfold lookupLimit
      rw [hf]
    have hnl : ¬ ((todayUsage db user_id action_type today : Int) < 0) :=
      Int.not_lt.mpr (Int.natCast_nonneg _)
    simp only [hu, htl, h0]
    simp [hnl]

/-- Witness for C7: a hosted-call exception, a missing user row, an unknown
tier and an unknown action type each make the limit check return false. -/
theorem C7_deny_by_default_witness :
    check_subscription_limits dbC7 6 "searches" 0 (some "boom") = false ∧
    check_subscription_limits dbC7 99 "searches" 0 none = false ∧
    check_subscription_limits dbC7 6 "searches" 0 none = false ∧
    check_subscription_limits dbC7 5 "exports" 0 none = false :=
  ⟨(C7_deny_by_default dbC7 6 "searches" 0).1 "boom",
   (C7_deny_by_default dbC7 99 "searches" 0).2.1 (by decide),
   (C7_deny_by_default dbC7 6 "searches" 0).2.2.1 frankC7 (by decide) (by decide),
   (C7_deny_by_default dbC7 5 "exports" 0).2.2.2 eveC2 _ (by decide) rfl (by decide)⟩

/-! ### Claim C3: reset tokens are single-use and time-bounded -/

/-- A record returned by the active-token select is a stored row with the
requested token and a clear used flag. -/
theorem findActiveReset_mem (db : DB) (token : String) (rec : PasswordReset)
    (h : findActiveReset db token = some rec) :
    rec ∈ db.password_resets ∧ rec.reset_token = token ∧ rec.used = false := by
  unfold findActiveReset at h
  have hmem := List.mem_of_mem_head? h
  have := List.mem_filter.mp hmem
  simpa using this

/-- When the active-token select returns no row, reset_password fails. -/
theorem reset_fails_of_no_active (db2 : DB) (token pw2 : String) (now2 : Nat)
    (h : findActiveReset db2 token = none) :
    (reset_password db2 token pw2 now2 none none none).1.1 = false := by
  unfold reset_password
  simp [h]

/-- C3: with no hosted-call exception and at most one stored row carrying the
token, a successful reset_password implies the token's row existed unused with
an expiry not earlier than the current time, and every later reset_password
call with the same token fails, the row having been marked used. -/
theorem C3_reset_token_single_use (db : DB) (token pw : String) (now : Nat)
    (huniq : ∀ x ∈ db.password_resets, ∀ y ∈ db.password_resets,
      x.reset_token = token → y.reset_token = token → x = y)
    (hsucc : (reset_password db token pw now none none none).1.1 = true) :
    (∃ rec ∈ db.password_resets,
       rec.reset_token = token ∧ rec.used = false ∧ now ≤ rec.expires_at) ∧
    (∀ pw2 now2,
      (reset_password (reset_password db token pw now none none none).2
        token pw2 now2 none none none).1.1 = false) := by
  unfold reset_password at hsucc
  cases h : findActiveReset db token with
  | none =>
    rw [h] at hsucc
    simp at hsucc
  | some rec =>
    rw [h] at hsucc
    by_cases hexp : rec.expires_at < now
    · simp [hexp] at hsucc
    · obtain ⟨hmem, htok, hused⟩ := findActiveReset_mem db token rec h
      refine ⟨⟨rec, hmem, htok, hused, Nat.le_of_not_lt hexp⟩, ?_⟩
      intro pw2 now2
      have hdb2 : (reset_password db token pw now none none none).2 =
          { db with
            users := db.users.map (fun u =>
              if u.id == rec.user_id then
                { u with password_hash := hash_password pw } else u),
            password_resets := db.password_resets.map (fun r =>
              if r.id == rec.id then { r with used := true } else r) } := by
        unfold reset_password
        simp only [h]
        simp [hexp]
      have hfilter : ((db.password_resets.map (fun r =>
          if r.id == rec.id then { r with used := true } else r)).filter
            (fun r => r.reset_token == token && r.used == false)) = [] := by
        rw [List.filter_eq_nil_iff]
        intro x hx
        obtain ⟨y, hy, rfl⟩ := List.mem_map.mp hx
        by_cases hyt : y.reset_token = token
        · have hyrec : y = rec := huniq y hy rec hmem hyt htok
          subst hyrec
          simp
        · by_cases hid : (y.id == rec.id) = true <;> simp [hid, hyt]
      apply reset_fails_of_no_active
      rw [hdb2]
      unfold findActiveReset
      dsimp only
      rw [hfilter]
      rfl

/-- Witness for C3: the first reset with the stored token succeeds and the
immediately following reset with the same token fails. -/
theorem C3_reset_token_single_use_witness :
    (reset_password dbC3 "tok" "npw" 20 none none none).1.1 = true ∧
    (reset_password (reset_password dbC3 "tok" "npw" 20 none none none).2
      "tok" "other" 99 none none none).1.1 = false :=
  ⟨by decide,
   (C3_reset_token_single_use dbC3 "tok" "npw" 20 (by decide) (by decide)).2 "other" 99⟩

/-! ### Claim C9: hosted-call exceptions surface as failure messages -/

/-- C9: an exception with text e raised by any hosted-store call inside
authenticate_user, create_user or reset_password never propagates: whenever
the faulting call is reached, the operation returns a failure whose message is
the operation's error prefix followed by e (so the message contains e); when
the call is not reached the result is that of the fault-free run. -/
theorem C9_exceptions_surfaced (db : DB) (e : String) :
    (∀ username password now f2,
      (authenticate_user db username password now (some e) f2).1 =
        (false, none, "Login error: " ++ e)) ∧
    (∀ username password now,
      (authenticate_user db username password now none (some e)).1 =
        (authenticate_user db username password now none none).1 ∨
      (authenticate_user db username password now none (some e)).1 =
        (false, none, "Login error: " ++ e)) ∧
    (∀ username email password tier now newId f2 f3,
      (create_user db username email password tier now newId (some e) f2 f3).1 =
        (false, "Error creating account: " ++ e)) ∧
    (∀ username email password tier now newId f3,
      (create_user db username email password tier now newId none (some e) f3).1 =
        (create_user db username email password tier now newId none none none).1 ∨
      (create_user db username email password tier now newId none (some e) f3).1 =
        (false, "Error creating account: " ++ e)) ∧
    (∀ username email password tier now newId,
      (create_user db username email password tier now newId none none (some e)).1 =
        (create_user db username email password tier now newId none none none).1 ∨
      (create_user db username email password tier now newId none none (some e)).1 =
        (false, "Error creating account: " ++ e)) ∧
    (∀ token pw now f2 f3,
      (reset_password db token pw now (some e) f2 f3).1 = (false, "Reset error: " ++ e)) ∧
    (∀ token pw now f3,
      (reset_password db token pw now none (some e) f3).1 =
        (reset_password db token pw now none none none).1 ∨
      (reset_password db token pw now none (some e) f3).1 =
        (false, "Reset error: " ++ e)) ∧
    (∀ token pw now,
      (reset_password db token pw now none none (some e)).1 =
        (reset_password db token pw now none none none).1 ∨
      (reset_password db token pw now none none (some e)).1 =
        (false, "Reset error: " ++ e)) := by
  refine ⟨fun _ _ _ _ => rfl, ?_, fun _ _ _ _ _ _ _ _ => rfl, ?_, ?_,
    fun _ _ _ _ _ => rfl, ?_, ?_⟩
  · intro username password now
    unfold authenticate_user
    cases h : findByUsername db username with
    | none => left; rfl
    | some u =>
      by_cases hv : verify_password password u.password_hash
      · by_cases hs : u.subscription_status = "active"
        · right
          simp [hv, hs]
        · left
          simp [hv, hs]
      · left
        simp [Bool.not_eq_true] at hv
        simp [hv]
  · intro username email password tier now newId f3
    unfold create_user
    by_cases hn : usernameExists db username
    · left
      simp [hn]
    · right
      simp [hn]
  · intro username email password tier now newId
    unfold create_user
    by_cases hn : usernameExists db username
    · left
      simp [hn]
    · by_cases he : emailExists db email
      · left
        simp [hn, he]
      · right
        simp [hn, he]
  · intro token pw now f3
    unfold reset_password
    cases h : findActiveReset db token with
    | none => left; rfl
    | some rec =>
      by_cases hexp : rec.expires_at < now
      · left
        simp [hexp]
      · right
        simp [hexp]
  · intro token pw now
    unfold reset_password
    cases h : findActiveReset db token with
    | none => left; rfl
    | some rec =>
      by_cases hexp : rec.expires_at < now
      · left
        simp [hexp]
      · right
        simp [hexp]

end ZenProc
